import Mathlib

/-!
# Share-A-Fact: a shallow embedding of `src/App.js`

The React component tree of `App.js` is embedded as explicit state passing.

* Every `useState` cell becomes a field of a structure (`App`, `NewFactForm`,
  `FactItem`), and every state setter becomes a record update, applied in the
  order of the source.
* An `async` handler is cut at its single `await`: the part before the `await`
  builds the request, the part after it consumes the store's response.
* `alert`, `console.log` and the requests sent to the store are recorded, in
  order, as a list of `Effect`s.
* Vote counts and ids are natural numbers (the store's integer columns). The client
  holds them as JavaScript numbers, so the two additions of the source
  (`votesInteresting + votesMindBlowing`, `fact[voteType] + 1`) round their result to
  the nearest double (`toDouble`), and may give `Infinity`.
* A JavaScript array slot that may hold `undefined` is an `Option`.
-/

namespace ShareAFact

/-! ## Data model -/

/-- The three vote columns a `Fact` item can increment (`handleVote(voteType)`). -/
inductive VoteType where
  | votesInteresting
  | votesMindBlowing
  | votesFalse
deriving DecidableEq, Repr

/-- A row of table `facts`, as the client reads it. -/
structure Fact where
  id : Nat
  text : String
  source : String
  category : String
  votesInteresting : Nat
  votesMindBlowing : Nat
  votesFalse : Nat
deriving DecidableEq, Repr

/-- Property read `fact[voteType]`. -/
def Fact.get (fact : Fact) : VoteType → Nat
  | .votesInteresting => fact.votesInteresting
  | .votesMindBlowing => fact.votesMindBlowing
  | .votesFalse => fact.votesFalse

/-- The row with column `voteType` set to `value`, as `update({ [voteType]: value })`
leaves it. -/
def Fact.set (fact : Fact) (voteType : VoteType) (value : Nat) : Fact :=
  match voteType with
  | .votesInteresting => { fact with votesInteresting := value }
  | .votesMindBlowing => { fact with votesMindBlowing := value }
  | .votesFalse => { fact with votesFalse := value }

/-- An entry of the Category Registry. -/
structure Category where
  name : String
  color : String
deriving DecidableEq, Repr

/-- The constant `CATEGORIES` (App.js, lines 5-14). -/
def CATEGORIES : List Category :=
  [ ⟨"technology", "#3b82f6"⟩,
    ⟨"science", "#16a34a"⟩,
    ⟨"finance", "#ef4444"⟩,
    ⟨"society", "#eab308"⟩,
    ⟨"entertainment", "#db2777"⟩,
    ⟨"health", "#14b8a6"⟩,
    ⟨"history", "#f97316"⟩,
    ⟨"news", "#8b5cf6"⟩ ]

/-! ## JavaScript numbers -/

/-- The largest finite double, `Number.MAX_VALUE`, which is `(2^53 - 1) * 2^971`. -/
def maxDouble : Nat := (2 ^ 53 - 1) * 2 ^ 971

/-- The double nearest to the natural number `n`: up to `2^53` every natural number is
a double; above, `n` is cut to 53 significant bits, rounding to nearest and a tie to
the even significand; `none` is `Infinity`, the result past `Number.MAX_VALUE`. -/
def toDouble (n : Nat) : Option Nat :=
  if n ≤ 2 ^ 53 then some n
  else
    let shift := Nat.log2 n - 52
    let q := n / 2 ^ shift
    let r := n % 2 ^ shift
    let half := 2 ^ (shift - 1)
    let up := decide (half < r) || (decide (r = half) && decide (q % 2 = 1))
    let rounded := (if up then q + 1 else q) * 2 ^ shift
    if rounded ≤ maxDouble then some rounded else none

/-- JavaScript's `a + b` on two numbers that hold non-negative integers: the exact
sum, rounded once to a double; `none` is `Infinity`. -/
def jsAdd (a b : Nat) : Option Nat :=
  toDouble (a + b)

/-! ## The Fact item: derived flag and colour tag -/

/-- The constant `isDisputed` of component `Fact` (line 208): the sum is a JavaScript
addition, and `Infinity < votesFalse` is false. -/
def isDisputed (fact : Fact) : Bool :=
  match jsAdd fact.votesInteresting fact.votesMindBlowing with
  | some sum => decide (sum < fact.votesFalse)
  | none => false

/-- The lookup `CATEGORIES.find((category) => category.name === fact.category)`
(line 232); `none` is the `undefined` that `find` returns when no entry matches. -/
def findCategory (fact : Fact) : Option Category :=
  CATEGORIES.find? (fun category => decide (category.name = fact.category))

/-- The expression `CATEGORIES.find(...).color` (line 232): reading `.color` of
`undefined` throws a `TypeError`, which is `none` here. -/
def tagColor (fact : Fact) : Option String :=
  match findCategory fact with
  | some category => some category.color
  | none => none

/-- What one rendered `Fact` item shows (lines 220-249). -/
structure FactView where
  disputed : Bool
  text : String
  href : String
  backgroundColor : String
  tag : String
  interesting : Nat
  mindBlowing : Nat
  falseVotes : Nat
  buttonsDisabled : Bool
deriving DecidableEq, Repr

/-- The render of component `Fact` for a given `isUpdating`; `none` when evaluating
the JSX throws (the colour lookup is the only expression that can). -/
def renderFact (fact : Fact) (isUpdating : Bool) : Option FactView :=
  match tagColor fact with
  | none => none
  | some color =>
    some
      { disputed := isDisputed fact
        text := fact.text
        href := fact.source
        backgroundColor := color
        tag := fact.category
        interesting := fact.votesInteresting
        mindBlowing := fact.votesMindBlowing
        falseVotes := fact.votesFalse
        buttonsDisabled := isUpdating }

/-- The names of the Category Registry, in order. -/
def categoryNames : List String := CATEGORIES.map Category.name

/-! ## Requests, responses, effects -/

/-- The two filters the client attaches: `.eq('category', v)` and `.eq('id', v)`. -/
inductive Filter where
  | category (value : String)
  | id (value : Nat)
deriving DecidableEq, Repr

/-- The object literal `{ text, source, category }` handed to `insert`. -/
structure NewRow where
  text : String
  source : String
  category : String
deriving DecidableEq, Repr

/-- The operation a request starts with, after `supabase.from(table)`. The value of
an update is a JavaScript number: `none` is `Infinity`. -/
inductive Verb where
  | select (columns : String)
  | insert (rows : List NewRow)
  | update (column : VoteType) (value : Option Nat)
deriving DecidableEq, Repr

/-- A request as the SDK's builder accumulates it. -/
structure Query where
  table : String
  verb : Verb
  returning : Bool
  filters : List Filter
  order : Option (VoteType × Bool)
  limit : Option Nat
deriving DecidableEq, Repr

/-- Builder `supabase.from(table).select(columns)`. -/
def Query.select (table columns : String) : Query :=
  { table := table, verb := .select columns, returning := true,
    filters := [], order := none, limit := none }

/-- Builder `supabase.from(table).insert(rows)`. -/
def Query.insert (table : String) (rows : List NewRow) : Query :=
  { table := table, verb := .insert rows, returning := false,
    filters := [], order := none, limit := none }

/-- Builder `supabase.from(table).update({ [column]: value })`. -/
def Query.update (table : String) (column : VoteType) (value : Option Nat) : Query :=
  { table := table, verb := .update column value, returning := false,
    filters := [], order := none, limit := none }

/-- Builder `.eq(column, value)`. -/
def Query.eq (q : Query) (f : Filter) : Query :=
  { q with filters := q.filters ++ [f] }

/-- Builder `.order(column, { ascending })`. -/
def Query.orderBy (q : Query) (column : VoteType) (ascending : Bool) : Query :=
  { q with order := some (column, ascending) }

/-- Builder `.limit(n)`. -/
def Query.take (q : Query) (n : Nat) : Query :=
  { q with limit := some n }

/-- Builder `.select()` chained after `insert` or `update`: send the rows back. -/
def Query.thenSelect (q : Query) : Query :=
  { q with returning := true }

/-- The SDK's answer `{ data, error }`: rows and a null error, or an error. -/
inductive Response where
  | ok (data : List Fact)
  | error (message : String)
deriving DecidableEq, Repr

/-- What a handler does to the world besides setting state. -/
inductive Effect where
  | request (q : Query)
  | alert (message : String)
  | log (args : List String)
  | logData (data : Option (List Fact))
  | preventDefault
deriving DecidableEq, Repr

/-- The requests among a handler's effects, in order. -/
def requests (effects : List Effect) : List Query :=
  effects.filterMap (fun e => match e with | .request q => some q | _ => none)

/-- The alert messages among a handler's effects, in order. -/
def alerts (effects : List Effect) : List String :=
  effects.filterMap (fun e => match e with | .alert m => some m | _ => none)

/-! ## Component state -/

/-- The four `useState` cells of `App` (lines 17-20). In `facts`, `none` is an
`undefined` array slot. -/
structure App where
  showForm : Bool
  facts : List (Option Fact)
  isLoading : Bool
  currentCategory : String
deriving DecidableEq, Repr

/-- The initial state of `App`. -/
def App.initial : App :=
  { showForm := false, facts := [], isLoading := false, currentCategory := "all" }

/-- The four `useState` cells of `NewFactForm` (lines 92-95). -/
structure NewFactForm where
  text : String
  source : String
  category : String
  isUploading : Bool
deriving DecidableEq, Repr

/-- The initial state of a freshly mounted `NewFactForm`. -/
def NewFactForm.initial : NewFactForm :=
  { text := "", source := "", category := "", isUploading := false }

/-- The `useState` cell of one `Fact` item (line 207). -/
structure FactItem where
  isUpdating : Bool
deriving DecidableEq, Repr

/-! ## Root Coordinator: `getFacts` -/

/-- The request `getFacts` builds (lines 27-33). -/
def getFactsQuery (currentCategory : String) : Query :=
  let query := Query.select "facts" "*"
  let query := if currentCategory ≠ "all" then query.eq (.category currentCategory) else query
  (query.orderBy .votesInteresting false).take 1000

/-- Function `getFacts` up to its `await` (lines 25-33). -/
def getFacts_send (app : App) : App × List Effect :=
  ({ app with isLoading := true }, [.request (getFactsQuery app.currentCategory)])

/-- Function `getFacts` after its `await` (lines 35-37). -/
def getFacts_receive (resp : Response) (app : App) : App × List Effect :=
  match resp with
  | .ok facts => ({ app with facts := facts.map some, isLoading := false }, [])
  | .error _ => ({ app with isLoading := false }, [.alert "There was a problem loading data"])

/-- One whole run of `getFacts` against a store that answers `respond q`. -/
def getFacts (respond : Query → Response) (app : App) : App × List Effect :=
  let sent := getFacts_send app
  let received := getFacts_receive (respond (getFactsQuery app.currentCategory)) sent.1
  (received.1, sent.2 ++ received.2)

/-- The button of `Header` (lines 71-73): `setShowForm((show) => !show)`. -/
def toggleForm (app : App) : App :=
  { app with showForm := !app.showForm }

/-- The buttons of `CategoryFilters` (lines 169, 178): `setCurrentCategory(name)`. -/
def setCurrentCategory (name : String) (app : App) : App :=
  { app with currentCategory := name }

/-! ## Fact Submission Form: `isValidHttpUrl`, `handleSubmit` -/

/-- The part of a parsed `URL` object the client reads. -/
structure URL where
  protocol : String
deriving DecidableEq, Repr

/-- Function `isValidHttpUrl` (lines 81-89). The platform constructor `new URL`
is the parameter `parseURL`; `none` is the exception it throws. -/
def isValidHttpUrl (parseURL : String → Option URL) (string : String) : Bool :=
  match parseURL string with
  | none => false
  | some url => url.protocol == "http:" || url.protocol == "https:"

/-- JavaScript's `string.length`: the number of UTF-16 code units. -/
def jsLength (s : String) : Nat :=
  (s.toList.map (fun c => if c.toNat < 65536 then 1 else 2)).sum

/-- The condition of the `if` at line 104. -/
def validitySignal (parseURL : String → Option URL) (text source category : String) : Bool :=
  (text != "") && isValidHttpUrl parseURL source && (category != "") && decide (jsLength text ≤ 200)

/-- The request `handleSubmit` builds (lines 109-119). -/
def handleSubmitQuery (text source category : String) : Query :=
  ((Query.insert "facts" [{ text := text, source := source, category := category }]).thenSelect).take
    1000

/-- Function `handleSubmit` up to its `await` (lines 100-119). -/
def handleSubmit_send (parseURL : String → Option URL) (form : NewFactForm) :
    NewFactForm × List Effect :=
  ({ form with isUploading := true },
    [.preventDefault, .log [form.text, form.source, form.category]]
      ++ (if validitySignal parseURL form.text form.source form.category
          then [.log ["there is valid data"]] else [])
      ++ [.request (handleSubmitQuery form.text form.source form.category)])

/-- The updater `(facts) => [...facts, newFact[0]]` (line 122). -/
def appendNewFact (newFact : List Fact) (facts : List (Option Fact)) : List (Option Fact) :=
  facts ++ [newFact[0]?]

/-- Function `handleSubmit` after its `await` (lines 120-129). -/
def handleSubmit_receive (resp : Response) (app : App) (form : NewFactForm) :
    App × NewFactForm × List Effect :=
  let form := { form with isUploading := false }
  let step :=
    match resp with
    | .ok newFact => ({ app with facts := appendNewFact newFact app.facts }, ([] : List Effect))
    | .error _ => (app, [Effect.alert "There was a problem adding your fact"])
  let form := { form with text := "" }
  let form := { form with source := "" }
  let form := { form with category := "" }
  (toggleForm step.1, form, step.2)

/-- One whole run of `handleSubmit` with nothing else happening in between. -/
def handleSubmit (parseURL : String → Option URL) (respond : Query → Response)
    (app : App) (form : NewFactForm) : App × NewFactForm × List Effect :=
  let sent := handleSubmit_send parseURL form
  let received :=
    handleSubmit_receive (respond (handleSubmitQuery form.text form.source form.category))
      app sent.1
  (received.1, received.2.1, sent.2 ++ received.2.2)

/-! ## Fact item: `handleVote` -/

/-- The request `handleVote` builds (lines 211-215). -/
def handleVoteQuery (fact : Fact) (voteType : VoteType) : Query :=
  ((Query.update "facts" voteType (jsAdd (fact.get voteType) 1)).eq (.id fact.id)).thenSelect

/-- Function `handleVote` up to its `await` (lines 210-215). -/
def handleVote_send (fact : Fact) (voteType : VoteType) (item : FactItem) :
    FactItem × List Effect :=
  ({ item with isUpdating := true }, [.request (handleVoteQuery fact voteType)])

/-- The updater `(facts) => facts.map((f) => (f.id === fact.id ? updatedFact[0] : f))`
(line 218). Reading `f.id` of an `undefined` slot throws; the result is then `none`. -/
def replaceById (fact : Fact) (updatedFact : List Fact) (facts : List (Option Fact)) :
    Option (List (Option Fact)) :=
  facts.mapM (fun slot =>
    match slot with
    | none => none
    | some f => some (if f.id = fact.id then updatedFact[0]? else some f))

/-- The result of the second half of `handleVote`. Field `app` is `none` when the
state updater threw, which tears the component tree down. -/
structure VoteOutcome where
  app : Option App
  item : FactItem
  effects : List Effect
deriving DecidableEq, Repr

/-- Function `handleVote` after its `await` (lines 216-218). -/
def handleVote_receive (fact : Fact) (resp : Response) (app : App) (item : FactItem) :
    VoteOutcome :=
  let item := { item with isUpdating := false }
  match resp with
  | .ok updatedFact =>
    { app := (replaceById fact updatedFact app.facts).map (fun facts => { app with facts := facts })
      item := item
      effects := [.logData (some updatedFact)] }
  | .error _ => { app := some app, item := item, effects := [.logData none] }

/-- One whole run of `handleVote` against a store that answers `respond q`. -/
def handleVote (respond : Query → Response) (fact : Fact) (voteType : VoteType)
    (app : App) (item : FactItem) : VoteOutcome :=
  let sent := handleVote_send fact voteType item
  let received := handleVote_receive fact (respond (handleVoteQuery fact voteType)) app sent.1
  { received with effects := sent.2 ++ received.effects }

/-! ## The Remote Fact Store -/

/-- Modelled from the spec: the Remote Fact Store of section 6, which the client
reaches through `./supabase` and whose code is not part of the sources. It holds
the rows of table `facts` and the identifier the next inserted row gets. -/
structure Store where
  rows : List Fact
  nextId : Nat
deriving DecidableEq, Repr

/-- Modelled from the spec: whether a row satisfies one filter of a request. -/
def Filter.holds (f : Filter) (row : Fact) : Bool :=
  match f with
  | .category value => decide (row.category = value)
  | .id value => decide (row.id = value)

/-- Modelled from the spec: whether a row satisfies every filter of a request. -/
def Query.selects (q : Query) (row : Fact) : Bool :=
  q.filters.all (fun f => f.holds row)

/-- Modelled from the spec: the row the store creates for an inserted object,
"with id and zero vote counts". -/
def Store.newFact (id : Nat) (row : NewRow) : Fact :=
  { id := id, text := row.text, source := row.source, category := row.category,
    votesInteresting := 0, votesMindBlowing := 0, votesFalse := 0 }

/-- Modelled from the spec: the rows a request gets back, cut to its limit. -/
def Query.cut (q : Query) (rows : List Fact) : List Fact :=
  match q.limit with
  | some n => rows.take n
  | none => rows

/-- Modelled from the spec: the three operations of the Remote Fact Store (section 6),
for a store that carries out every request: filtered select with ordering and limit,
insert returning the row, update returning the row. An update whose value is not a
finite number names no integer: the store answers with an error and changes nothing. -/
def Store.exec (db : Store) (q : Query) : Store × Response :=
  match q.verb with
  | .select _ =>
    let hits := db.rows.filter q.selects
    let sorted :=
      match q.order with
      | some (column, true) => hits.insertionSort (fun a b => a.get column ≤ b.get column)
      | some (column, false) => hits.insertionSort (fun a b => b.get column ≤ a.get column)
      | none => hits
    (db, .ok (q.cut sorted))
  | .insert rows =>
    let created := rows.enum.map (fun p => Store.newFact (db.nextId + p.1) p.2)
    ({ rows := db.rows ++ created, nextId := db.nextId + rows.length },
      .ok (if q.returning then q.cut created else []))
  | .update column (some value) =>
    let updated := (db.rows.filter q.selects).map (fun row => row.set column value)
    ({ db with rows := db.rows.map (fun row => if q.selects row then row.set column value else row) },
      .ok (if q.returning then q.cut updated else []))
  | .update _ none => (db, .error "invalid input value for an integer column")

/-- The store's answer to a request, as the client's `await` receives it. -/
def Store.respond (db : Store) (q : Query) : Response :=
  (db.exec q).2

/-! ## Votes against the store -/

/-- A click on vote button `voteType` of the `Fact` item at position `i` of the list,
run to completion against the store: `none` when no item is rendered there or the
state updater throws. -/
def clickVote (voteType : VoteType) (i : Nat) (sys : Store × App) : Option (Store × App) :=
  match sys.2.facts[i]? with
  | some (some fact) =>
    (handleVote sys.1.respond fact voteType sys.2 { isUpdating := false }).app.map
      (fun app => ((sys.1.exec (handleVoteQuery fact voteType)).1, app))
  | _ => none

/-- The click of `clickVote` repeated `n` times, each on the item as re-rendered. -/
def clickVoteTimes (voteType : VoteType) (i : Nat) : Nat → Store × App → Option (Store × App)
  | 0, sys => some sys
  | n + 1, sys => (clickVote voteType i sys).bind (clickVoteTimes voteType i n)

/-! ## The page as an event loop -/

/-- The page between two events: the state of `App`, the mounted `NewFactForm`
(line 47 mounts one exactly while `showForm` holds), the number of the latest form
instance, the form instances whose `handleSubmit` waits at its `await`, and the
alerts shown so far. -/
structure Page where
  app : App
  form : Option NewFactForm
  formId : Nat
  pending : List Nat
  alerted : List String
deriving DecidableEq, Repr

/-- The page right after `App` first renders. -/
def Page.initial : Page :=
  { app := App.initial, form := none, formId := 0, pending := [], alerted := [] }

/-- Re-render after `App` state changed (line 47): an open form stays mounted, a
newly shown one is mounted fresh, a hidden one is unmounted and its state dropped. -/
def Page.render (app : App) (p : Page) : Page :=
  if app.showForm then
    match p.form with
    | some _ => { p with app := app }
    | none => { p with app := app, form := some NewFactForm.initial, formId := p.formId + 1 }
  else { p with app := app, form := none }

/-- What the user and the store can do to the page. -/
inductive Event where
  | clickHeaderButton
  | typeText (value : String)
  | typeSource (value : String)
  | chooseCategory (value : String)
  | submitForm (parseURL : String → Option URL)
  | insertAnswered (k : Nat) (resp : Response)

/-- One turn of the event loop. A suspended `handleSubmit` resumes on
`insertAnswered`; its form setters reach only the instance that started it. -/
def Page.step (p : Page) : Event → Page
  | .clickHeaderButton => p.render (toggleForm p.app)
  | .typeText value =>
    { p with form := p.form.map (fun f => if f.isUploading then f else { f with text := value }) }
  | .typeSource value =>
    { p with form := p.form.map (fun f => if f.isUploading then f else { f with source := value }) }
  | .chooseCategory value =>
    { p with form := p.form.map (fun f => { f with category := value }) }
  | .submitForm parseURL =>
    match p.form with
    | some f =>
      if f.isUploading then p
      else { p with form := some (handleSubmit_send parseURL f).1, pending := p.pending ++ [p.formId] }
    | none => p
  | .insertAnswered k resp =>
    match p.pending[k]? with
    | none => p
    | some inst =>
      let mounted := if inst = p.formId then p.form else none
      let received := handleSubmit_receive resp p.app (mounted.getD NewFactForm.initial)
      let q :=
        { p with
          form := if mounted.isSome then some received.2.1 else p.form
          pending := p.pending.eraseIdx k
          alerted := p.alerted ++ alerts received.2.2 }
      q.render received.1

/-- The page after a sequence of events. -/
def Page.run (p : Page) (events : List Event) : Page :=
  events.foldl Page.step p

/-! ## Sample data -/

/-- A fact with votes `(1, 0, 0)`. -/
def sampleFact : Fact :=
  { id := 7, text := "Octopuses have three hearts", source := "https://example.org/octopus",
    category := "science", votesInteresting := 1, votesMindBlowing := 0, votesFalse := 0 }

/-- Another fact, with a different id. -/
def otherFact : Fact :=
  { id := 8, text := "Lisbon is older than Rome", source := "https://example.org/lisbon",
    category := "history", votesInteresting := 4, votesMindBlowing := 2, votesFalse := 1 }

/-- A store that holds the two sample facts. -/
def sampleStore : Store :=
  { rows := [otherFact, sampleFact], nextId := 9 }

/-- The store's row of `sampleFact` after other clients voted on it: votes `(5, 2, 0)`. -/
def votedElsewhere : Fact :=
  { sampleFact with votesInteresting := 5, votesMindBlowing := 2 }

/-- A store whose row of id 7 is ahead of the client's copy `sampleFact`. -/
def aheadStore : Store :=
  { rows := [votedElsewhere], nextId := 9 }

/-- A fact as a client holds it, with votes `(7, 0, 0)`. -/
def likedFact : Fact :=
  { id := 11, text := "Honey never spoils", source := "https://example.org/honey",
    category := "science", votesInteresting := 7, votesMindBlowing := 0, votesFalse := 0 }

/-- A store whose row of id 11 has votes `(5, 0, 0)`, fewer than the client's copy
`likedFact` shows. -/
def behindStore : Store :=
  { rows := [{ likedFact with votesInteresting := 5 }], nextId := 12 }

/-- A fact whose `votesFalse` is `2^53`. -/
def bigFact : Fact :=
  { id := 12, text := "Bananas are berries", source := "https://example.org/banana",
    category := "science", votesInteresting := 0, votesMindBlowing := 0,
    votesFalse := 9007199254740992 }

/-- A store that holds `bigFact`. -/
def bigStore : Store :=
  { rows := [bigFact], nextId := 13 }

/-- A fact with votes `(2^53 + 2, 1, 2^53 + 4)`, each of them a double. -/
def hugeFact : Fact :=
  { id := 13, text := "Sharks are older than trees", source := "https://example.org/shark",
    category := "science", votesInteresting := 9007199254740994, votesMindBlowing := 1,
    votesFalse := 9007199254740996 }

/-- A URL parser that accepts exactly the strings starting with `https://`. -/
def sampleParseURL (s : String) : Option URL :=
  if s.startsWith "https://" then some { protocol := "https:" } else none

/-- A session up to the `await` of `handleSubmit`: open the form, fill it in, submit. -/
def fillAndSubmit : List Event :=
  [ .clickHeaderButton,
    .typeText "Octopuses have three hearts",
    .typeSource "https://example.org/octopus",
    .chooseCategory "science",
    .submitForm sampleParseURL ]

/-- The session of `fillAndSubmit`, then the store's answer. -/
def submitTrace (resp : Response) : List Event :=
  fillAndSubmit ++ [.insertAnswered 0 resp]

/-- The session of `fillAndSubmit`, then a click on the header button (it reads
`Close`) while the insert is in flight, and then the store's answer. -/
def reopenTrace (resp : Response) : List Event :=
  fillAndSubmit ++ [.clickHeaderButton, .insertAnswered 0 resp]

/-! ## Helper lemmas -/

theorem Fact.get_set_self (fact : Fact) (t : VoteType) (v : Nat) : (fact.set t v).get t = v := by
  cases t <;> rfl

theorem Fact.get_set_other (fact : Fact) (t u : VoteType) (v : Nat) (h : u ≠ t) :
    (fact.set t v).get u = fact.get u := by
  cases t <;> cases u <;> first | rfl | exact absurd rfl h

theorem Fact.set_set (fact : Fact) (t : VoteType) (v w : Nat) :
    (fact.set t v).set t w = fact.set t w := by
  cases t <;> rfl

theorem Fact.set_id (fact : Fact) (t : VoteType) (v : Nat) : (fact.set t v).id = fact.id := by
  cases t <;> rfl

theorem replaceById_map_some (fact : Fact) (updatedFact : List Fact) (facts : List Fact) :
    replaceById fact updatedFact (facts.map some)
      = some (facts.map (fun g => if g.id = fact.id then updatedFact[0]? else some g)) := by
  induction facts with
  | nil => rfl
  | cons g rest ih =>
    unfold replaceById at ih ⊢
    simp only [List.map_cons, List.mapM_cons, ih]
    rfl

theorem toDouble_of_le (n : Nat) (h : n ≤ 2 ^ 53) : toDouble n = some n := by
  unfold toDouble
  rw [if_pos h]

theorem jsAdd_one (n : Nat) (h : n < 2 ^ 53) : jsAdd n 1 = some (n + 1) :=
  toDouble_of_le (n + 1) h

theorem log2_of_bounds (n k : Nat) (hlo : 2 ^ k ≤ n) (hhi : n < 2 ^ (k + 1)) :
    Nat.log2 n = k := by
  have hn : n ≠ 0 := by
    have : 0 < 2 ^ k := Nat.two_pow_pos k
    omega
  have h1 : Nat.log2 n < k + 1 := (Nat.log2_lt hn).2 hhi
  have h2 : ¬ Nat.log2 n < k := fun h => absurd ((Nat.log2_lt hn).1 h) (by omega)
  omega

theorem le_mul_two_pow (n m e : Nat) (hm : 0 < m) (he : 60 ≤ e) (h : n ≤ 2 ^ 60) :
    n ≤ m * 2 ^ e :=
  calc n ≤ 2 ^ 60 := h
    _ ≤ 2 ^ e := Nat.pow_le_pow_right (by decide) he
    _ ≤ m * 2 ^ e := Nat.le_mul_of_pos_left _ hm

theorem le_maxDouble (n : Nat) (h : n ≤ 2 ^ 60) : n ≤ maxDouble :=
  le_mul_two_pow n (2 ^ 53 - 1) 971 (by norm_num) (by norm_num) h

theorem toDouble_tie_down : toDouble 9007199254740993 = some 9007199254740992 := by
  have hlog : Nat.log2 9007199254740993 = 53 :=
    log2_of_bounds 9007199254740993 53 (by norm_num) (by norm_num)
  simp [toDouble, hlog, le_maxDouble 9007199254740992 (by norm_num)]

theorem toDouble_tie_up : toDouble 9007199254740995 = some 9007199254740996 := by
  have hlog : Nat.log2 9007199254740995 = 53 :=
    log2_of_bounds 9007199254740995 53 (by norm_num) (by norm_num)
  simp [toDouble, hlog, le_maxDouble 9007199254740996 (by norm_num)]

theorem toDouble_low : toDouble 9007199254740994 = some 9007199254740994 := by
  have hlog : Nat.log2 9007199254740994 = 53 :=
    log2_of_bounds 9007199254740994 53 (by norm_num) (by norm_num)
  simp [toDouble, hlog, le_maxDouble 9007199254740994 (by norm_num)]

theorem toDouble_high : toDouble 9007199254740996 = some 9007199254740996 := by
  have hlog : Nat.log2 9007199254740996 = 53 :=
    log2_of_bounds 9007199254740996 53 (by norm_num) (by norm_num)
  simp [toDouble, hlog, le_maxDouble 9007199254740996 (by norm_num)]

theorem isDisputed_of_sum (fact : Fact) (sum : Nat)
    (h : jsAdd fact.votesInteresting fact.votesMindBlowing = some sum)
    (hs : ¬ sum < fact.votesFalse) : isDisputed fact = false := by
  unfold isDisputed
  rw [h]
  exact decide_eq_false hs

theorem handleVoteQuery_selects (fact : Fact) (t : VoteType) :
    (handleVoteQuery fact t).selects = fun row => decide (row.id = fact.id) := by
  funext row
  simp [handleVoteQuery, Query.update, Query.eq, Query.thenSelect, Query.selects, Filter.holds]

theorem Store.exec_handleVoteQuery (db : Store) (fact : Fact) (t : VoteType) (v : Nat)
    (hv : jsAdd (fact.get t) 1 = some v) :
    db.exec (handleVoteQuery fact t)
      = ({ db with rows := db.rows.map (fun row =>
              if row.id = fact.id then row.set t v else row) },
          .ok ((db.rows.filter (fun row => decide (row.id = fact.id))).map
            (fun row => row.set t v))) := by
  have hsel := handleVoteQuery_selects fact t
  have hverb : (handleVoteQuery fact t).verb = .update t (some v) := by
    simp [handleVoteQuery, Query.update, Query.eq, Query.thenSelect, hv]
  have hret : (handleVoteQuery fact t).returning = true := rfl
  have hlim : (handleVoteQuery fact t).limit = none := rfl
  simp [Store.exec, hverb, hret, hsel, Query.cut, hlim]

theorem handleVote_app (db : Store) (app : App) (item : FactItem) (facts : List Fact)
    (fact : Fact) (t : VoteType) (v : Nat) (hv : jsAdd (fact.get t) 1 = some v) :
    (handleVote db.respond fact t { app with facts := facts.map some } item).app
      = some { app with
          facts := facts.map (fun g =>
            if g.id = fact.id then
              ((db.rows.filter (fun row => decide (row.id = fact.id))).map
                (fun row => row.set t v))[0]?
            else some g) } := by
  simp only [handleVote, handleVote_receive, Store.respond,
    Store.exec_handleVoteQuery db fact t v hv, replaceById_map_some, Option.map_some']

theorem clickVote_eq (t : VoteType) (i : Nat) (db : Store) (app : App)
    (facts : List Fact) (fact : Fact) (v : Nat) (hi : facts[i]? = some fact)
    (hv : jsAdd (fact.get t) 1 = some v) :
    clickVote t i (db, { app with facts := facts.map some })
      = some ({ db with rows := db.rows.map (fun row =>
                  if row.id = fact.id then row.set t v else row) },
              { app with
                  facts := facts.map (fun g =>
                    if g.id = fact.id then
                      ((db.rows.filter (fun row => decide (row.id = fact.id))).map
                        (fun row => row.set t v))[0]?
                    else some g) }) := by
  have hslot : (facts.map some)[i]? = some (some fact) := by
    simp [List.getElem?_map, hi]
  simp only [clickVote, hslot, handleVote_app db app { isUpdating := false } facts fact t v hv,
    Store.exec_handleVoteQuery db fact t v hv, Option.map_some']

theorem Store.respond_handleVoteQuery (db : Store) (fact : Fact) (t : VoteType)
    (hsafe : fact.get t < 2 ^ 53)
    (hsync : db.rows.filter (fun row => decide (row.id = fact.id)) = [fact]) :
    db.respond (handleVoteQuery fact t) = .ok [fact.set t (fact.get t + 1)] := by
  simp [Store.respond, Store.exec_handleVoteQuery db fact t _ (jsAdd_one _ hsafe), hsync]

theorem handleVote_in_sync (db : Store) (app : App) (item : FactItem) (facts : List Fact)
    (fact : Fact) (t : VoteType) (hsafe : fact.get t < 2 ^ 53)
    (hsync : db.rows.filter (fun row => decide (row.id = fact.id)) = [fact]) :
    (handleVote db.respond fact t { app with facts := facts.map some } item).app
      = some { app with
          facts := (facts.map (fun g => if g.id = fact.id then fact.set t (fact.get t + 1) else g)).map some } := by
  have hmap : (facts.map (fun g =>
        if g.id = fact.id then [fact.set t (fact.get t + 1)][0]? else some g))
      = (facts.map (fun g => if g.id = fact.id then fact.set t (fact.get t + 1) else g)).map
          some := by
    rw [List.map_map]
    apply List.map_congr_left
    intro g _
    by_cases h : g.id = fact.id <;> simp [h]
  rw [handleVote_app db app item facts fact t _ (jsAdd_one _ hsafe), hsync]
  simp only [List.map_cons, List.map_nil, hmap]

theorem sync_after_update (rows : List Fact) (fact : Fact) (t : VoteType) (v : Nat)
    (hsync : rows.filter (fun row => decide (row.id = fact.id)) = [fact]) :
    (rows.map (fun row => if row.id = fact.id then row.set t v else row)).filter
        (fun row => decide (row.id = (fact.set t v).id))
      = [fact.set t v] := by
  rw [List.filter_map]
  have hp : ((fun row : Fact => decide (row.id = (fact.set t v).id)) ∘
        fun row => if row.id = fact.id then row.set t v else row)
      = fun row => decide (row.id = fact.id) := by
    funext row
    by_cases h : row.id = fact.id <;> simp [h, Fact.set_id]
  rw [hp, hsync]
  simp

theorem getElem?_replaced (facts : List Fact) (fact new : Fact) (i : Nat)
    (hi : facts[i]? = some fact) :
    (facts.map (fun g => if g.id = fact.id then new else g))[i]? = some new := by
  simp [List.getElem?_map, hi]

theorem clickVote_in_sync (t : VoteType) (i : Nat) (db : Store) (app : App)
    (facts : List Fact) (fact : Fact) (hi : facts[i]? = some fact)
    (hsafe : fact.get t < 2 ^ 53)
    (hsync : db.rows.filter (fun row => decide (row.id = fact.id)) = [fact]) :
    clickVote t i (db, { app with facts := facts.map some })
      = some ({ db with rows := db.rows.map (fun row =>
                  if row.id = fact.id then row.set t (fact.get t + 1) else row) },
              { app with
                  facts := (facts.map (fun g => if g.id = fact.id then fact.set t (fact.get t + 1) else g)).map some }) := by
  have hslot : (facts.map some)[i]? = some (some fact) := by
    simp [List.getElem?_map, hi]
  simp only [clickVote, hslot,
    handleVote_in_sync db app { isUpdating := false } facts fact t hsafe hsync,
    Store.exec_handleVoteQuery db fact t _ (jsAdd_one _ hsafe), Option.map_some']

theorem clickVoteTimes_in_sync (t : VoteType) (i n : Nat) :
    ∀ (db : Store) (app : App) (facts : List Fact) (fact : Fact),
      facts[i]? = some fact →
      fact.get t + n ≤ 2 ^ 53 →
      db.rows.filter (fun row => decide (row.id = fact.id)) = [fact] →
      ∃ (db1 : Store) (facts1 : List Fact),
        clickVoteTimes t i n (db, { app with facts := facts.map some })
          = some (db1, { app with facts := facts1.map some }) ∧
        facts1[i]? = some (fact.set t (fact.get t + n)) ∧
        facts1.length = facts.length ∧
        (∀ (j : Nat) (g : Fact), facts[j]? = some g → g.id ≠ fact.id → facts1[j]? = some g) ∧
        db1.rows.filter (fun row => decide (row.id = fact.id))
          = [fact.set t (fact.get t + n)] := by
  induction n with
  | zero =>
    intro db app facts fact hi _ hsync
    refine ⟨db, facts, rfl, ?_, rfl, fun j g hj _ => hj, ?_⟩
    · have : fact.set t (fact.get t + 0) = fact := by cases t <;> rfl
      rw [this, hi]
    · have : fact.set t (fact.get t + 0) = fact := by cases t <;> rfl
      rw [this, hsync]
  | succ n ih =>
    intro db app facts fact hi hsafe hsync
    have hlt : fact.get t < 2 ^ 53 := by omega
    have hstep := clickVote_in_sync t i db app facts fact hi hlt hsync
    have hi1 := getElem?_replaced facts fact (fact.set t (fact.get t + 1)) i hi
    have hsync1 := sync_after_update db.rows fact t (fact.get t + 1) hsync
    have hsafe1 : (fact.set t (fact.get t + 1)).get t + n ≤ 2 ^ 53 := by
      rw [Fact.get_set_self]
      omega
    obtain ⟨db1, facts1, hrun, hget, hlen, hother, hdb⟩ :=
      ih { db with rows := db.rows.map (fun row =>
              if row.id = fact.id then row.set t (fact.get t + 1) else row) }
        app _ (fact.set t (fact.get t + 1)) hi1 hsafe1 hsync1
    refine ⟨db1, facts1, ?_, ?_, ?_, ?_, ?_⟩
    · simp only [clickVoteTimes, hstep, Option.some_bind]
      exact hrun
    · rw [hget, Fact.set_set, Fact.get_set_self, Nat.add_assoc, Nat.add_comm 1 n]
    · rw [hlen, List.length_map]
    · intro j g hj hne
      apply hother j g
      · simp [List.getElem?_map, hj, hne]
      · rw [Fact.set_id]; exact hne
    · rw [Fact.set_id] at hdb
      rw [hdb, Fact.set_set, Fact.get_set_self, Nat.add_assoc, Nat.add_comm 1 n]

/-! ## The disputed flag -/

/-- C1 as amended: for every fact whose `votesInteresting + votesMindBlowing` is at
most `2^53`, the range in which a JavaScript addition of integers is exact, the
disputed flag the `Fact` item computes is true exactly when
`votesInteresting + votesMindBlowing < votesFalse`; in particular it is false when the
false votes equal the sum of the other two. -/
theorem isDisputed_iff (fact : Fact)
    (hsafe : fact.votesInteresting + fact.votesMindBlowing ≤ 2 ^ 53) :
    (isDisputed fact = true ↔
      fact.votesInteresting + fact.votesMindBlowing < fact.votesFalse) ∧
    isDisputed { fact with votesFalse := fact.votesInteresting + fact.votesMindBlowing } = false ∧
    ∀ isUpdating view, renderFact fact isUpdating = some view →
      (view.disputed = true ↔
        fact.votesInteresting + fact.votesMindBlowing < fact.votesFalse) := by
  have hadd : jsAdd fact.votesInteresting fact.votesMindBlowing
      = some (fact.votesInteresting + fact.votesMindBlowing) := toDouble_of_le _ hsafe
  refine ⟨by simp [isDisputed, hadd], by simp [isDisputed, hadd], ?_⟩
  intro isUpdating view h
  unfold renderFact at h
  split at h
  · cases h
  · cases h
    simp [isDisputed, hadd]

/-- Witness of C1 as amended, on the sample fact with votes `(1, 0, 0)`. -/
theorem isDisputed_iff_witness :
    sampleFact.votesInteresting + sampleFact.votesMindBlowing ≤ 2 ^ 53 ∧
    (isDisputed sampleFact = true ↔
      sampleFact.votesInteresting + sampleFact.votesMindBlowing < sampleFact.votesFalse) ∧
    isDisputed sampleFact = false :=
  ⟨by simp [sampleFact],
    (isDisputed_iff sampleFact (by simp [sampleFact])).1,
    by simp [isDisputed, jsAdd, sampleFact, toDouble]⟩

/-- Counterexample to C1 as stated: the votes `(2^53 + 2, 1, 2^53 + 4)` are
non-negative integers, each a double, with `votesInteresting + votesMindBlowing <
votesFalse`; the JavaScript sum `2^53 + 3` is a tie that rounds to `2^53 + 4`, so the
item is not disputed. -/
theorem isDisputed_counterexample :
    isDisputed hugeFact = false ∧
    hugeFact.votesInteresting + hugeFact.votesMindBlowing < hugeFact.votesFalse ∧
    hugeFact.votesInteresting = 9007199254740994 ∧
    hugeFact.votesMindBlowing = 1 ∧
    hugeFact.votesFalse = 9007199254740996 ∧
    toDouble 9007199254740994 = some 9007199254740994 ∧
    toDouble 9007199254740996 = some 9007199254740996 ∧
    ¬ (isDisputed hugeFact = true ↔
        hugeFact.votesInteresting + hugeFact.votesMindBlowing < hugeFact.votesFalse) := by
  have hsum : jsAdd 9007199254740994 1 = some 9007199254740996 := by
    simp [jsAdd, toDouble_tie_up]
  have hI : hugeFact.votesInteresting = 9007199254740994 := rfl
  have hM : hugeFact.votesMindBlowing = 1 := rfl
  have hF : hugeFact.votesFalse = 9007199254740996 := rfl
  have hfalse : isDisputed hugeFact = false :=
    isDisputed_of_sum hugeFact 9007199254740996 hsum (Nat.lt_irrefl _)
  have hlt : hugeFact.votesInteresting + hugeFact.votesMindBlowing < hugeFact.votesFalse := by
    rw [hI, hM, hF]
    norm_num
  refine ⟨hfalse, hlt, hI, hM, hF, toDouble_low, toDouble_high, ?_⟩
  · rw [hfalse]
    intro h
    exact absurd (h.2 hlt) (by simp)

/-! ## The colour tag -/

theorem findCategory_eq_none_iff (fact : Fact) :
    findCategory fact = none ↔ fact.category ∉ categoryNames := by
  unfold findCategory categoryNames
  rw [List.find?_eq_none]
  simp only [List.mem_map, decide_eq_true_eq, not_exists, not_and]

theorem findCategory_of_name (fact : Fact) (c : Category) (hc : c ∈ CATEGORIES)
    (h : fact.category = c.name) : findCategory fact = some c := by
  simp only [CATEGORIES, List.mem_cons, List.mem_singleton, List.not_mem_nil, or_false] at hc
  rcases hc with rfl | rfl | rfl | rfl | rfl | rfl | rfl | rfl <;>
    simp [findCategory, CATEGORIES, h, List.find?]

/-- C10: the colour-tag lookup of the `Fact` item succeeds exactly when
`fact.category` is one of the eight registry names, whose names are pairwise distinct,
and it then returns the colour of the entry of that name (`technology` gives
`#3b82f6`); for any other category, the empty string of an untouched form included,
the lookup finds no entry and the render of the item fails. -/
theorem tagColor_registry (fact : Fact) (isUpdating : Bool) (parseURL : String → Option URL)
    (db : Store) (app : App) :
    ((tagColor fact).isSome = true ↔ fact.category ∈ categoryNames) ∧
    ((renderFact fact isUpdating).isSome = true ↔ fact.category ∈ categoryNames) ∧
    (∀ c ∈ CATEGORIES, fact.category = c.name →
      findCategory fact = some c ∧ tagColor fact = some c.color) ∧
    categoryNames.Nodup ∧ categoryNames.length = 8 ∧
    tagColor { fact with category := "technology" } = some "#3b82f6" ∧
    (fact.category ∉ categoryNames →
      findCategory fact = none ∧ tagColor fact = none ∧ renderFact fact isUpdating = none) ∧
    NewFactForm.initial.category = "" ∧
    findCategory { fact with category := "" } = none ∧
    renderFact { fact with category := "" } isUpdating = none ∧
    (∃ row : Fact,
      (handleSubmit parseURL db.respond app NewFactForm.initial).1.facts
        = app.facts ++ [some row] ∧
      row.category = "" ∧ renderFact row isUpdating = none) := by
  have hnone := findCategory_eq_none_iff fact
  refine ⟨?_, ?_, ?_, by decide, by decide, ?_, ?_, rfl, ?_, ?_, ?_⟩
  · by_cases h : fact.category ∈ categoryNames
    · have : findCategory fact ≠ none := fun e => (hnone.1 e) h
      cases hf : findCategory fact with
      | none => exact absurd hf this
      | some c => simp [tagColor, hf, h]
    · simp [tagColor, hnone.2 h, h]
  · by_cases h : fact.category ∈ categoryNames
    · have : findCategory fact ≠ none := fun e => (hnone.1 e) h
      cases hf : findCategory fact with
      | none => exact absurd hf this
      | some c => simp [renderFact, tagColor, hf, h]
    · simp [renderFact, tagColor, hnone.2 h, h]
  · intro c hc h
    have hf := findCategory_of_name fact c hc h
    exact ⟨hf, by simp [tagColor, hf]⟩
  · simp [tagColor, findCategory, CATEGORIES, List.find?]
  · intro h
    have hf := hnone.2 h
    exact ⟨hf, by simp [tagColor, hf], by simp [renderFact, tagColor, hf]⟩
  · simp [findCategory, CATEGORIES, List.find?]
  · simp [renderFact, tagColor, findCategory, CATEGORIES, List.find?]
  · refine ⟨{ id := db.nextId, text := "", source := "", category := "", votesInteresting := 0,
              votesMindBlowing := 0, votesFalse := 0 }, ?_, rfl, ?_⟩
    · simp [handleSubmit, handleSubmit_receive, appendNewFact, toggleForm, NewFactForm.initial,
        Store.respond, Store.exec, handleSubmitQuery, Query.insert, Query.thenSelect,
        Query.take, Query.cut, Store.newFact, List.enum, List.enumFrom]
    · simp [renderFact, tagColor, findCategory, CATEGORIES, List.find?]

/-! ## Refresh -/

/-- C5: for every `currentCategory`, a run of the refresh operation issues exactly one
request, a select on table `facts` that carries the filter `category = currentCategory`
when `currentCategory` is not `"all"` and no filter when it is, ordered by
`votesInteresting` descending with limit 1000; and on a successful response the
canonical list becomes exactly the returned sequence, whatever it held before, with
`isLoading` false. -/
theorem getFacts_refresh (respond : Query → Response) (app : App) (rows : List Fact)
    (previous : List (Option Fact)) :
    requests (getFacts respond app).2 = [getFactsQuery app.currentCategory] ∧
    (getFactsQuery app.currentCategory).table = "facts" ∧
    (getFactsQuery app.currentCategory).verb = .select "*" ∧
    (getFactsQuery app.currentCategory).filters
      = (if app.currentCategory = "all" then [] else [.category app.currentCategory]) ∧
    (getFactsQuery "all").filters = [] ∧
    (getFactsQuery app.currentCategory).order = some (.votesInteresting, false) ∧
    (getFactsQuery app.currentCategory).limit = some 1000 ∧
    (getFacts_send app).1.isLoading = true ∧
    getFacts_receive (.ok rows) { app with facts := previous }
      = ({ app with facts := rows.map some, isLoading := false }, []) ∧
    (getFacts (fun _ => .ok rows) { app with facts := previous }).1
      = { app with facts := rows.map some, isLoading := false } := by
  refine ⟨?_, ?_, ?_, ?_, rfl, ?_, ?_, rfl, rfl, rfl⟩
  · cases h : respond (getFactsQuery app.currentCategory) <;>
      simp [getFacts, getFacts_send, getFacts_receive, requests, h]
  all_goals
    by_cases h : app.currentCategory = "all" <;>
      simp [getFactsQuery, Query.select, Query.eq, Query.orderBy, Query.take, h]

/-! ## Store errors -/

/-- C6: for each of the three store-facing operations and every prior canonical list,
when the store returns an error the canonical list after the operation equals the
list before it, and the operation's loading, uploading or updating flag is false. -/
theorem store_error_keeps_facts (message : String) (parseURL : String → Option URL)
    (app : App) (form : NewFactForm) (item : FactItem) (fact : Fact) (voteType : VoteType) :
    ((getFacts (fun _ => .error message) app).1.facts = app.facts ∧
      (getFacts (fun _ => .error message) app).1.isLoading = false) ∧
    ((handleSubmit parseURL (fun _ => .error message) app form).1.facts = app.facts ∧
      (handleSubmit parseURL (fun _ => .error message) app form).2.1.isUploading = false) ∧
    ((handleVote (fun _ => .error message) fact voteType app item).app = some app ∧
      (handleVote (fun _ => .error message) fact voteType app item).item.isUpdating = false) ∧
    ((getFacts_receive (.error message) app).1.facts = app.facts ∧
      (getFacts_receive (.error message) app).1.isLoading = false) ∧
    ((handleSubmit_receive (.error message) app form).1.facts = app.facts ∧
      (handleSubmit_receive (.error message) app form).2.1.isUploading = false) ∧
    ((handleVote_receive fact (.error message) app item).app = some app ∧
      (handleVote_receive fact (.error message) app item).item.isUpdating = false) := by
  refine ⟨⟨rfl, rfl⟩, ⟨rfl, rfl⟩, ⟨rfl, rfl⟩, ⟨rfl, rfl⟩, ⟨rfl, rfl⟩, ⟨rfl, rfl⟩⟩

/-! ## Submission -/

/-- C3: for every canonical list and inputs `(text, source, category)`, after a
successful submission the canonical list is the previous list with exactly one entry
appended at the end, the row the store returned; against a store that carries out the
insert that row has the three submitted field values and all three vote counts 0. -/
theorem handleSubmit_appends (parseURL : String → Option URL) (db : Store) (app : App)
    (form : NewFactForm) (row : Fact) (others : List Fact) :
    (handleSubmit_receive (.ok (row :: others)) app form).1.facts = app.facts ++ [some row] ∧
    (handleSubmit parseURL (fun _ => .ok (row :: others)) app form).1.facts
      = app.facts ++ [some row] ∧
    (handleSubmit parseURL db.respond app form).1.facts
      = app.facts ++ [some { id := db.nextId, text := form.text, source := form.source,
                             category := form.category, votesInteresting := 0,
                             votesMindBlowing := 0, votesFalse := 0 }] ∧
    (handleSubmit parseURL db.respond app form).1.facts.length = app.facts.length + 1 ∧
    (∀ i, i < app.facts.length →
      (handleSubmit parseURL db.respond app form).1.facts[i]? = app.facts[i]?) ∧
    alerts (handleSubmit parseURL db.respond app form).2.2 = [] := by
  have hdb : db.respond (handleSubmitQuery form.text form.source form.category)
      = .ok [{ id := db.nextId, text := form.text, source := form.source,
               category := form.category, votesInteresting := 0,
               votesMindBlowing := 0, votesFalse := 0 }] := by
    simp [Store.respond, Store.exec, handleSubmitQuery, Query.insert, Query.thenSelect,
      Query.take, Query.cut, Store.newFact, List.enum, List.enumFrom]
  have hfacts : (handleSubmit parseURL db.respond app form).1.facts
      = app.facts ++ [some { id := db.nextId, text := form.text, source := form.source,
                             category := form.category, votesInteresting := 0,
                             votesMindBlowing := 0, votesFalse := 0 }] := by
    simp [handleSubmit, handleSubmit_receive, hdb, appendNewFact, toggleForm]
  refine ⟨?_, ?_, hfacts, ?_, ?_, ?_⟩
  · simp [handleSubmit_receive, appendNewFact, toggleForm]
  · simp [handleSubmit, handleSubmit_receive, appendNewFact, toggleForm]
  · simp [hfacts]
  · intro i hi
    rw [hfacts, List.getElem?_append_left hi]
  · by_cases hv : validitySignal parseURL form.text form.source form.category = true <;>
      simp [handleSubmit, handleSubmit_send, handleSubmit_receive, hdb, alerts, hv]

/-- C9: the validity signal of the submit operation is exactly (text non-empty and
source passes `isValidHttpUrl` and category non-empty and text length at most 200),
and it is inert: for all inputs, whatever the signal, submit issues the same single
insert request with row `(text, source, category)` and makes the same changes to the
canonical list and the form state; the signal decides one console line only. -/
theorem handleSubmit_validity_inert (parseURL other : String → Option URL)
    (respond : Query → Response) (app : App) (form : NewFactForm) :
    (validitySignal parseURL form.text form.source form.category = true ↔
      form.text ≠ "" ∧ isValidHttpUrl parseURL form.source = true ∧ form.category ≠ "" ∧
        jsLength form.text ≤ 200) ∧
    requests (handleSubmit parseURL respond app form).2.2
      = [handleSubmitQuery form.text form.source form.category] ∧
    handleSubmitQuery form.text form.source form.category
      = { table := "facts"
          verb := .insert [{ text := form.text, source := form.source, category := form.category }]
          returning := true, filters := [], order := none, limit := some 1000 } ∧
    (handleSubmit parseURL respond app form).1
      = toggleForm
          (match respond (handleSubmitQuery form.text form.source form.category) with
           | .ok newFact => { app with facts := app.facts ++ [newFact[0]?] }
           | .error _ => app) ∧
    (handleSubmit parseURL respond app form).2.1 = NewFactForm.initial ∧
    (handleSubmit parseURL respond app form).2.2.filter
        (fun e => decide (e ≠ .log ["there is valid data"]))
      = [.preventDefault, .log [form.text, form.source, form.category],
          .request (handleSubmitQuery form.text form.source form.category)]
        ++ (match respond (handleSubmitQuery form.text form.source form.category) with
            | .ok _ => []
            | .error _ => [.alert "There was a problem adding your fact"]) ∧
    (Effect.log ["there is valid data"] ∈ (handleSubmit parseURL respond app form).2.2 ↔
      validitySignal parseURL form.text form.source form.category = true) ∧
    (handleSubmit parseURL respond app form).1 = (handleSubmit other respond app form).1 ∧
    (handleSubmit parseURL respond app form).2.1 = (handleSubmit other respond app form).2.1 ∧
    requests (handleSubmit parseURL respond app form).2.2
      = requests (handleSubmit other respond app form).2.2 ∧
    alerts (handleSubmit parseURL respond app form).2.2
      = alerts (handleSubmit other respond app form).2.2 := by
  have hreq : ∀ p : String → Option URL, requests (handleSubmit p respond app form).2.2
      = [handleSubmitQuery form.text form.source form.category] := by
    intro p
    by_cases hv : validitySignal p form.text form.source form.category = true <;>
      cases hr : respond (handleSubmitQuery form.text form.source form.category) <;>
        simp [handleSubmit, handleSubmit_send, handleSubmit_receive, requests, hv, hr]
  have halert : ∀ p : String → Option URL, alerts (handleSubmit p respond app form).2.2
      = (match respond (handleSubmitQuery form.text form.source form.category) with
          | .ok _ => []
          | .error _ => ["There was a problem adding your fact"]) := by
    intro p
    by_cases hv : validitySignal p form.text form.source form.category = true <;>
      cases hr : respond (handleSubmitQuery form.text form.source form.category) <;>
        simp [handleSubmit, handleSubmit_send, handleSubmit_receive, alerts, hv, hr]
  refine ⟨?_, hreq parseURL, rfl, ?_, rfl, ?_, ?_, rfl, rfl, ?_, ?_⟩
  · simp [validitySignal, and_assoc]
  · cases hr : respond (handleSubmitQuery form.text form.source form.category) <;>
      simp [handleSubmit, handleSubmit_receive, appendNewFact, hr]
  · by_cases hv : validitySignal parseURL form.text form.source form.category = true <;>
      cases hr : respond (handleSubmitQuery form.text form.source form.category) <;>
        simp [handleSubmit, handleSubmit_send, handleSubmit_receive, hv, hr]
  · by_cases hv : validitySignal parseURL form.text form.source form.category = true <;>
      cases hr : respond (handleSubmitQuery form.text form.source form.category) <;>
        simp [handleSubmit, handleSubmit_send, handleSubmit_receive, hv, hr]
  · rw [hreq parseURL, hreq other]
  · rw [halert parseURL, halert other]

/-! ## Closing the form -/

/-- C4: a run of `handleSubmit` empties the three fields and flips `showForm`, for
a success and for an error alike. The flip hides the form when nothing happens between
the submit and the store's answer; when the header button is clicked in between, the
form is already hidden and the flip shows it again. -/
theorem handleSubmit_flips_showForm (parseURL : String → Option URL)
    (respond : Query → Response) (app : App) (form : NewFactForm) (resp : Response) :
    (handleSubmit parseURL respond app form).2.1 = NewFactForm.initial ∧
    (handleSubmit parseURL respond app form).1.showForm = !app.showForm ∧
    (Page.initial.run fillAndSubmit).app.showForm = true ∧
    (Page.initial.run (submitTrace resp)).app.showForm = false ∧
    (Page.initial.run (submitTrace resp)).form = none ∧
    (Page.initial.run (reopenTrace resp)).app.showForm = true ∧
    (Page.initial.run (reopenTrace resp)).form = some NewFactForm.initial ∧
    (Page.initial.run (reopenTrace resp)).pending = [] ∧
    (∀ (p : Page) (k : Nat) (f : NewFactForm),
      p.app.showForm = true → p.form = some f → p.pending[k]? = some p.formId →
        (p.step (.insertAnswered k resp)).app.showForm = false ∧
        (p.step (.insertAnswered k resp)).form = none) ∧
    (∀ (p : Page) (k : Nat),
      p.app.showForm = false → p.form = none → p.pending[k]? = some p.formId →
        (p.step (.insertAnswered k resp)).app.showForm = true ∧
        (p.step (.insertAnswered k resp)).form = some NewFactForm.initial) := by
  have hmounted : ∀ (p : Page) (k : Nat) (f : NewFactForm),
      p.app.showForm = true → p.form = some f → p.pending[k]? = some p.formId →
        (p.step (.insertAnswered k resp)).app.showForm = false ∧
        (p.step (.insertAnswered k resp)).form = none := by
    intro p k f hshow hform hpend
    cases resp <;>
      simp [Page.step, Page.render, hpend, hform, hshow, handleSubmit_receive, toggleForm]
  have hunmounted : ∀ (p : Page) (k : Nat),
      p.app.showForm = false → p.form = none → p.pending[k]? = some p.formId →
        (p.step (.insertAnswered k resp)).app.showForm = true ∧
        (p.step (.insertAnswered k resp)).form = some NewFactForm.initial := by
    intro p k hshow hform hpend
    cases resp <;>
      simp [Page.step, Page.render, hpend, hform, hshow, handleSubmit_receive, toggleForm,
        NewFactForm.initial]
  refine ⟨rfl, ?_, ?_, ?_, ?_, ?_, ?_, ?_, hmounted, hunmounted⟩
  · cases h : respond (handleSubmitQuery form.text form.source form.category) <;>
      simp [handleSubmit, handleSubmit_receive, toggleForm, h]
  all_goals
    cases resp <;>
      simp [Page.run, Page.step, Page.render, Page.initial, App.initial, NewFactForm.initial,
        fillAndSubmit, submitTrace, reopenTrace, toggleForm, handleSubmit_send,
        handleSubmit_receive]

/-! ## Alerts -/

/-- C7: the fetch and the insert raise an alert exactly when the store response
carries an error, and the vote update raises no alert for any response, an error
included. -/
theorem handleVote_error_raises_no_alert (parseURL : String → Option URL) (resp : Response)
    (app : App) (form : NewFactForm) (item : FactItem) (fact : Fact) (voteType : VoteType) :
    (alerts (getFacts (fun _ => resp) app).2 ≠ [] ↔ ∃ message, resp = .error message) ∧
    (alerts (handleSubmit parseURL (fun _ => resp) app form).2.2 ≠ [] ↔
      ∃ message, resp = .error message) ∧
    alerts (handleVote (fun _ => resp) fact voteType app item).effects = [] ∧
    alerts (handleVote (fun _ => .error "update failed") fact voteType app item).effects
      = [] := by
  refine ⟨?_, ?_, ?_, rfl⟩
  · cases resp <;> simp [getFacts, getFacts_send, getFacts_receive, alerts]
  · by_cases hv : validitySignal parseURL form.text form.source form.category = true <;>
      cases resp <;>
        simp [handleSubmit, handleSubmit_send, handleSubmit_receive, alerts, hv]
  · cases resp <;> simp [handleVote, handleVote_send, handleVote_receive, alerts]

/-! ## Votes -/

/-- C2 as amended: for every canonical list, every fact `f` in it and every vote type
`t` whose count on `f` is below `2^53`, after a successful vote against a store whose
one row of id `f.id` equals the client's copy `f`, and which applies the requested
update and returns the updated row, the entry of `f` has field `t` equal to its
pre-vote value plus one and all its other fields unchanged, and every entry with
another id is unchanged at its position (same length, same order); when the ids of
the list are pairwise distinct that is every other entry. -/
theorem handleVote_updates_entry (db : Store) (app : App) (item : FactItem)
    (facts : List Fact) (fact : Fact) (t : VoteType) (hmem : fact ∈ facts)
    (hsafe : fact.get t < 2 ^ 53)
    (hsync : db.rows.filter (fun row => decide (row.id = fact.id)) = [fact]) :
    ∃ after : List Fact,
      (handleVote db.respond fact t { app with facts := facts.map some } item).app
        = some { app with facts := after.map some } ∧
      requests (handleVote db.respond fact t { app with facts := facts.map some } item).effects
        = [handleVoteQuery fact t] ∧
      (handleVoteQuery fact t).verb = .update t (some (fact.get t + 1)) ∧
      after.length = facts.length ∧
      (∃ i : Nat, facts[i]? = some fact ∧ after[i]? = some (fact.set t (fact.get t + 1))) ∧
      (∀ i : Nat, facts[i]? = some fact → after[i]? = some (fact.set t (fact.get t + 1))) ∧
      (∀ (i : Nat) (g : Fact), facts[i]? = some g → g.id ≠ fact.id → after[i]? = some g) ∧
      ((facts.map Fact.id).Nodup →
        after = facts.map (fun g => if g = fact then g.set t (g.get t + 1) else g)) ∧
      (fact.set t (fact.get t + 1)).get t = fact.get t + 1 ∧
      (∀ u, u ≠ t → (fact.set t (fact.get t + 1)).get u = fact.get u) ∧
      (fact.set t (fact.get t + 1)).id = fact.id ∧
      (fact.set t (fact.get t + 1)).text = fact.text ∧
      (fact.set t (fact.get t + 1)).source = fact.source ∧
      (fact.set t (fact.get t + 1)).category = fact.category := by
  refine ⟨facts.map (fun g => if g.id = fact.id then fact.set t (fact.get t + 1) else g),
    handleVote_in_sync db app item facts fact t hsafe hsync, ?_, ?_, by simp, ?_, ?_, ?_, ?_,
    Fact.get_set_self _ _ _, fun u hu => Fact.get_set_other _ _ _ _ hu, Fact.set_id _ _ _,
    by cases t <;> rfl, by cases t <;> rfl, by cases t <;> rfl⟩
  · simp [handleVote, handleVote_send, handleVote_receive,
      Store.respond_handleVoteQuery db fact t hsafe hsync, requests]
  · simp [handleVoteQuery, Query.update, Query.eq, Query.thenSelect, jsAdd_one _ hsafe]
  · obtain ⟨i, hi⟩ := List.mem_iff_getElem?.1 hmem
    exact ⟨i, hi, getElem?_replaced facts fact _ i hi⟩
  · intro i hi
    exact getElem?_replaced facts fact _ i hi
  · intro i g hi hne
    simp [List.getElem?_map, hi, hne]
  · intro hnodup
    apply List.map_congr_left
    intro g hg
    by_cases h : g = fact
    · simp [h]
    · have hid : g.id ≠ fact.id := fun e => h (List.inj_on_of_nodup_map hnodup hg hmem e)
      simp [h, hid]

/-- Witness of C2 as amended, on the two sample facts: a vote `votesFalse` on the
first. -/
theorem handleVote_updates_entry_witness :
    sampleFact ∈ [sampleFact, otherFact] ∧
    sampleFact.get .votesFalse < 2 ^ 53 ∧
    sampleStore.rows.filter (fun row => decide (row.id = sampleFact.id)) = [sampleFact] ∧
    ∃ after : List Fact,
      (handleVote sampleStore.respond sampleFact .votesFalse
          { App.initial with facts := [sampleFact, otherFact].map some }
          { isUpdating := false }).app
        = some { App.initial with facts := after.map some } ∧
      after[0]? = some { sampleFact with votesFalse := 1 } ∧
      after[1]? = some otherFact ∧
      after.length = 2 := by
  refine ⟨by simp, by simp [sampleFact, Fact.get],
    by simp [sampleStore, sampleFact, otherFact], ?_⟩
  obtain ⟨after, happ, _, _, hlen, _, hself, hother, _⟩ :=
    handleVote_updates_entry sampleStore App.initial { isUpdating := false }
      [sampleFact, otherFact] sampleFact .votesFalse (by simp)
      (by simp [sampleFact, Fact.get])
      (by simp [sampleStore, sampleFact, otherFact])
  exact ⟨after, happ, hself 0 rfl, hother 1 otherFact rfl (by simp [sampleFact, otherFact]), hlen⟩

/-- Counterexample to C2 as stated. First, the store's row of id 7 has votes
`(5, 2, 0)` while the client's copy has `(1, 0, 0)`: the store applies the requested
update `votesFalse := 1` and returns the updated row `(5, 2, 1)`, so the two other
counts of the client's entry change. Second, the client's copy and the store's row
agree and `votesFalse` is `2^53`: the requested value `2^53 + 1` rounds to `2^53`,
and the entry's `votesFalse` is its pre-vote value, not that value plus one. -/
theorem handleVote_counterexample :
    ((handleVote aheadStore.respond sampleFact .votesFalse
          { App.initial with facts := [some sampleFact] } { isUpdating := false }).app
        = some { App.initial with
                  facts := [some { sampleFact with votesInteresting := 5, votesMindBlowing := 2,
                                                   votesFalse := 1 }] } ∧
      sampleFact.votesInteresting = 1 ∧ sampleFact.votesMindBlowing = 0 ∧
      sampleFact.votesFalse = 0 ∧
      aheadStore.rows.filter (fun row => decide (row.id = sampleFact.id)) = [votedElsewhere]) ∧
    ((handleVote bigStore.respond bigFact .votesFalse
          { App.initial with facts := [some bigFact] } { isUpdating := false }).app
        = some { App.initial with facts := [some bigFact] } ∧
      bigFact.votesFalse = 2 ^ 53 ∧
      bigStore.rows.filter (fun row => decide (row.id = bigFact.id)) = [bigFact] ∧
      (handleVoteQuery bigFact .votesFalse).verb = .update .votesFalse (some (2 ^ 53))) := by
  have hone : jsAdd (sampleFact.get .votesFalse) 1 = some 1 := by
    simp [jsAdd, sampleFact, Fact.get, toDouble]
  have hbig : jsAdd (bigFact.get .votesFalse) 1 = some 9007199254740992 := toDouble_tie_down
  refine ⟨⟨?_, rfl, rfl, rfl, by simp [aheadStore, votedElsewhere, sampleFact]⟩,
    ⟨?_, by simp [bigFact], by simp [bigStore], ?_⟩⟩
  · have h := handleVote_app aheadStore App.initial { isUpdating := false } [sampleFact]
      sampleFact .votesFalse 1 hone
    simp only [List.map_cons, List.map_nil] at h
    rw [h]
    simp [aheadStore, votedElsewhere, sampleFact, Fact.set]
  · have h := handleVote_app bigStore App.initial { isUpdating := false } [bigFact]
      bigFact .votesFalse 9007199254740992 hbig
    simp only [List.map_cons, List.map_nil] at h
    rw [h]
    simp [bigStore, bigFact, Fact.set]
  · simp [handleVoteQuery, Query.update, Query.eq, Query.thenSelect, hbig]

/-- C8 as amended: for every fact, vote type `t` and `n` with the fact's count `t`
plus `n` at most `2^53`, `n` successive successful votes of type `t` on that fact,
against a store whose one row of that id equals the client's copy at the start and
which applies each requested update, leave its canonical entry with count `t` raised
by exactly `n` and the other two counts unchanged, so no count decreases; a fact with
votes `(1, 0, 0)` is not disputed, and with `votesFalse` raised by three it has
`votesFalse = 3` and is disputed. -/
theorem votes_accumulate (db : Store) (app : App) (facts : List Fact) (fact : Fact)
    (t : VoteType) (i n : Nat) (hi : facts[i]? = some fact)
    (hsafe : fact.get t + n ≤ 2 ^ 53)
    (hsync : db.rows.filter (fun row => decide (row.id = fact.id)) = [fact]) :
    (∃ (db1 : Store) (after : List Fact),
      clickVoteTimes t i n (db, { app with facts := facts.map some })
        = some (db1, { app with facts := after.map some }) ∧
      after[i]? = some (fact.set t (fact.get t + n)) ∧
      after.length = facts.length ∧
      (∀ (j : Nat) (g : Fact), facts[j]? = some g → g.id ≠ fact.id → after[j]? = some g)) ∧
    (fact.set t (fact.get t + n)).get t = fact.get t + n ∧
    (∀ u, u ≠ t → (fact.set t (fact.get t + n)).get u = fact.get u) ∧
    (∀ u, fact.get u ≤ (fact.set t (fact.get t + n)).get u) ∧
    (∀ (id : Nat) (text source category : String),
      isDisputed ⟨id, text, source, category, 1, 0, 0⟩ = false ∧
      (Fact.set ⟨id, text, source, category, 1, 0, 0⟩ .votesFalse (0 + 3)).votesFalse = 3 ∧
      isDisputed (Fact.set ⟨id, text, source, category, 1, 0, 0⟩ .votesFalse (0 + 3)) = true) := by
  obtain ⟨db1, after, hrun, hget, hlen, hother, _⟩ :=
    clickVoteTimes_in_sync t i n db app facts fact hi hsafe hsync
  refine ⟨⟨db1, after, hrun, hget, hlen, hother⟩, Fact.get_set_self _ _ _,
    fun u hu => Fact.get_set_other _ _ _ _ hu, ?_, ?_⟩
  · intro u
    by_cases hu : u = t
    · rw [hu, Fact.get_set_self]
      exact Nat.le_add_right _ _
    · rw [Fact.get_set_other _ _ _ _ hu]
  · intro id text source category
    exact ⟨by simp [isDisputed, jsAdd, toDouble], rfl,
      by simp [isDisputed, jsAdd, toDouble, Fact.set]⟩

/-- Witness of C8 as amended, the scenario of the specification: three votes
`votesFalse` on the sample fact, whose votes are `(1, 0, 0)`. -/
theorem votes_accumulate_witness :
    [sampleFact, otherFact][0]? = some sampleFact ∧
    sampleFact.get .votesFalse + 3 ≤ 2 ^ 53 ∧
    sampleStore.rows.filter (fun row => decide (row.id = sampleFact.id)) = [sampleFact] ∧
    isDisputed sampleFact = false ∧
    ∃ (db1 : Store) (after : List Fact),
      clickVoteTimes .votesFalse 0 3
          (sampleStore, { App.initial with facts := [sampleFact, otherFact].map some })
        = some (db1, { App.initial with facts := after.map some }) ∧
      after[0]? = some { sampleFact with votesFalse := 3 } ∧
      after[1]? = some otherFact ∧
      isDisputed { sampleFact with votesFalse := 3 } = true := by
  refine ⟨rfl, by simp [sampleFact, Fact.get], by simp [sampleStore, sampleFact, otherFact],
    by simp [isDisputed, jsAdd, toDouble, sampleFact], ?_⟩
  obtain ⟨⟨db1, after, hrun, hget, _, hother⟩, _⟩ :=
    votes_accumulate sampleStore App.initial [sampleFact, otherFact] sampleFact .votesFalse 0 3
      rfl (by simp [sampleFact, Fact.get]) (by simp [sampleStore, sampleFact, otherFact])
  exact ⟨db1, after, hrun, hget, hother 1 otherFact rfl (by simp [sampleFact, otherFact]),
    by simp [isDisputed, jsAdd, toDouble, sampleFact]⟩

/-- Counterexample to C8 as stated. First, the client's copy has votes `(7, 0, 0)`
and the store's row of that id `(5, 0, 0)`: one successful vote `votesFalse` leaves
the canonical entry at `(5, 0, 1)`, so `votesInteresting` decreases. Second, the
client's copy and the store's row agree and `votesFalse` is `2^53`: one successful
vote leaves store and entry as they were, the count is not raised. -/
theorem votes_counterexample :
    (clickVoteTimes .votesFalse 0 1 (behindStore, { App.initial with facts := [some likedFact] })
        = some ({ behindStore with
                    rows := [{ likedFact with votesInteresting := 5, votesFalse := 1 }] },
                { App.initial with
                    facts := [some { likedFact with votesInteresting := 5, votesFalse := 1 }] }) ∧
      likedFact.votesInteresting = 7 ∧ likedFact.votesFalse = 0) ∧
    (clickVoteTimes .votesFalse 0 1 (bigStore, { App.initial with facts := [some bigFact] })
        = some (bigStore, { App.initial with facts := [some bigFact] }) ∧
      bigFact.votesFalse = 2 ^ 53 ∧
      bigStore.rows.filter (fun row => decide (row.id = bigFact.id)) = [bigFact]) := by
  have hone : jsAdd (likedFact.get .votesFalse) 1 = some 1 := by
    simp [jsAdd, likedFact, Fact.get, toDouble]
  have hbig : jsAdd (bigFact.get .votesFalse) 1 = some 9007199254740992 := toDouble_tie_down
  refine ⟨⟨?_, rfl, rfl⟩, ⟨?_, by simp [bigFact], by simp [bigStore]⟩⟩
  · have h := clickVote_eq .votesFalse 0 behindStore App.initial [likedFact] likedFact 1 rfl hone
    simp only [List.map_cons, List.map_nil] at h
    simp only [clickVoteTimes, h, Option.some_bind]
    simp [behindStore, likedFact, Fact.set]
  · have h := clickVote_eq .votesFalse 0 bigStore App.initial [bigFact] bigFact
      9007199254740992 rfl hbig
    simp only [List.map_cons, List.map_nil] at h
    simp only [clickVoteTimes, h, Option.some_bind]
    simp [bigStore, bigFact, Fact.set]

end ShareAFact
